import Mathlib

/-!
Verification of the F1 race-strategy backend (python-backend).

The simulation, detection and lifecycle code is embedded shallowly over ℚ:
Python floats become exact rationals, `time.time()` values and all random
draws become explicit inputs, and the mutable per-car / per-service state
becomes explicit state passing.  Sources: `simulation_service.py`,
`detection_service.py`, `track_data.py`, `config.py`, `server.py`.
-/

/-- Truncation toward zero: the semantics of Python's `int()` on a number. -/
def pyInt (q : ℚ) : ℤ := if q < 0 then ⌈q⌉ else ⌊q⌋

/-- Python's `%` on rationals (result has the sign of the divisor; used here
only with positive divisors). -/
def pymod (a m : ℚ) : ℚ := a - m * ⌊a / m⌋

/-- NumPy's `np.clip(x, lo, hi)`: `min(max(x, lo), hi)`. -/
def np_clip (x lo hi : ℚ) : ℚ := min (max x lo) hi

/-- `config.Settings.ALERT_COOLDOWN` (seconds). -/
def ALERT_COOLDOWN : ℚ := 5

/-- `TRACK_CONFIG.total_length` in meters, from `track_data.py`. -/
def total_length : ℚ := 5000

/-- Sector tags of the 226 track points built by
`track_data.generate_track_points`: the point-generation loops produce
25+20+30 = 75 points tagged sector 1, then 25+35+18 = 78 points tagged
sector 2, then 20+25+20+8 = 73 points tagged sector 3. -/
def trackSectors : List ℕ :=
  List.replicate 75 1 ++ List.replicate 78 2 ++ List.replicate 73 3

/-- The `progress = progress % 1.0; if progress < 0: progress += 1.0`
normalization shared by `_get_position_from_progress` and
`_get_sector_from_progress` (the second branch is dead in exact arithmetic,
but is kept as written). -/
def wrap01 (p : ℚ) : ℚ := if Int.fract p < 0 then Int.fract p + 1 else Int.fract p

/-- `SimulationService._get_sector_from_progress`: wrap the progress, index
into the 226 track points, return that point's sector, defaulting to 1 when
the index is out of range. -/
def sectorAt (p : ℚ) : ℕ :=
  let index := pyInt (wrap01 p * 226)
  if 0 ≤ index ∧ index < 226 then trackSectors.getD index.toNat 1 else 1

/-- Per-sector target-speed profile of
`SimulationService._calculate_speed_for_position` (lines 91-103).
`sinVal` stands for the value of `math.sin(sector_progress * π * 4)` used by
the sector-2 profile; it is passed in because the embedding is exact. -/
def target_speed (progress sinVal : ℚ) : ℚ :=
  let sector := sectorAt progress
  let sp := pymod progress (1/3) * 3
  if sector = 1 then (if sp < 2/5 then 320 else 180 - sp * 200)
  else if sector = 2 then 220 + sinVal * 50
  else 160 + sp * 140

/-- `SimulationService._calculate_speed_for_position` (lines 91-113):
profile target, plus random jitter `(np.random.random() - 0.5) * 20`
(here the explicit input `jitter`), rate-limited to ±15 per tick and
clamped to [50, 340]. -/
def calculate_speed_for_position (progress current jitter sinVal : ℚ) : ℚ :=
  np_clip (current + np_clip (target_speed progress sinVal + jitter - current) (-15) 15) 50 340

/-- `models.TireCompound`. -/
inductive TireCompound | soft | medium | hard | intermediate | wet
deriving DecidableEq

/-- Tire choice of `update_telemetry` lines 153-160 as a function of the
computed lap number. -/
def tire_for_lap (lap : ℤ) : TireCompound :=
  if lap < 15 then .soft else if lap < 35 then .medium else .hard

/-- `simulation_service.CarState`: the per-car mutable state that
`update_telemetry` reads and writes (the `last_update_time` field is
replaced by the explicit elapsed-time input of the tick). -/
structure CarState where
  track_progress : ℚ
  speed : ℚ
  pit_stop_cooldown : ℕ
deriving DecidableEq

/-- The fields of `models.CarTelemetry` that the update loop computes from
the car state (identity, position, DRS and lap-time fields are independent
draws/lookups and are not constrained by the claims). -/
structure CarTelemetry where
  speed : ℚ
  tire : TireCompound
  tire_laps : ℤ
  fuel : ℚ
  current_lap : ℤ
  in_pit : Bool
deriving DecidableEq

/-- One iteration of the per-car loop body of
`SimulationService.update_telemetry` (lines 123-192): speed update, progress
advance with single-subtraction wraparound, pit-cooldown bookkeeping, and
the derived lap number / tire / fuel fields of the emitted snapshot.
`dt` is `now - car_state.last_update_time`; `jitter`, `sinVal`, `pitRoll`
are the tick's random draws.  The session-global `self.current_lap` counter
(incremented on any wrap) is separate state and does not feed any snapshot
field. -/
def update_telemetry_car (st : CarState) (dt jitter sinVal pitRoll : ℚ) :
    CarState × CarTelemetry :=
  let speed := calculate_speed_for_position st.track_progress st.speed jitter sinVal
  let progress_increment := speed / (18/5) * dt / total_length
  let p1 := st.track_progress + progress_increment
  let p2 := if 1 ≤ p1 then p1 - 1 else p1
  let in_pit := decide (0 < st.pit_stop_cooldown)
  let cooldown2 :=
    if 0 < st.pit_stop_cooldown then st.pit_stop_cooldown - 1
    else if pitRoll < 1/10000 then 100 else st.pit_stop_cooldown
  let lap_number := pyInt p2 + 1
  (⟨p2, speed, cooldown2⟩,
   { speed := speed
     tire := tire_for_lap lap_number
     tire_laps := lap_number % 20
     fuel := max 10 (100 - (lap_number : ℚ) * (3/2))
     current_lap := lap_number
     in_pit := in_pit })

/-- Grid stagger of `SimulationService._initialize_cars`:
`start_progress = -0.002 * idx`. -/
def start_progress (idx : ℕ) : ℚ := -(2/1000) * idx

/-- `models.WeatherCondition`. -/
inductive WeatherCondition | dry | damp | wet | heavy_rain
deriving DecidableEq

/-- The `conditions` list of `generate_weather_data` (line 198). -/
def conditions : List WeatherCondition := [.dry, .damp, .wet]

/-- `conditions[np.random.randint(0, len(conditions))]`. -/
def cond_of_index (i : Fin 3) : WeatherCondition := conditions.get ⟨i.val, i.isLt⟩

/-- The `rain_intensity` lookup dict of `generate_weather_data`
(default 0 is unreachable: every condition is a key). -/
def rain_intensity : WeatherCondition → ℚ
  | .dry => 0
  | .damp => 20
  | .wet => 60
  | .heavy_rain => 90

/-- The `grip_level` lookup dict of `generate_weather_data`
(default 95 is unreachable: every condition is a key). -/
def grip_level : WeatherCondition → ℚ
  | .dry => 95
  | .damp => 75
  | .wet => 50
  | .heavy_rain => 30

/-- The fields of `models.WeatherZone` that are functions of the drawn
condition (temperature, humidity and wind are independent bounded draws). -/
structure WeatherZone where
  condition : WeatherCondition
  rain : ℚ
  grip : ℚ
deriving DecidableEq

/-- Per-sector body of `SimulationService.generate_weather_data`
(lines 202-233): keep the base condition unless the 10% deviation roll hits,
in which case redraw uniformly from the same three conditions; rain and grip
are the lookup constants for the chosen condition. -/
def gen_zone (base : WeatherCondition) (roll : ℚ) (pick : Fin 3) : WeatherZone :=
  let condition := if roll < 1/10 then cond_of_index pick else base
  { condition := condition
    rain := rain_intensity condition
    grip := grip_level condition }

/-- `models.AlertSeverity`. -/
inductive AlertSeverity | info | warning | critical
deriving DecidableEq

/-- The fields of a `models.CarTelemetry` snapshot that the detection rules
read. -/
structure CarSnap where
  speed : ℚ
  in_pit : Bool
deriving DecidableEq

/-- `speed_drop_pct` of `_detect_slowdowns` (line 69), including the
division-by-zero guard. -/
def slowdown_pct (prev cur : ℚ) : ℚ := if 0 < prev then (prev - cur) / prev else 0

/-- The cooldown gate shared by the alert rules of `detection_service.py`:
a key fires when its condition holds and `now - last > cooldown`, where a
missing history record reads as `0` (`self.alert_history.get(alert_key, 0)`). -/
def fires (cond : Bool) (now cooldown : ℚ) (last : Option ℚ) : Bool :=
  cond && decide (cooldown < now - last.getD 0)

/-- One evaluation of the cooldown gate for one key, recording the firing
timestamp exactly when it fires (`self.alert_history[alert_key] = now`).
The event `ev` is the pair (evaluation time, condition holds). -/
def stepKey (cooldown : ℚ) (last : Option ℚ) (ev : ℚ × Bool) : Bool × Option ℚ :=
  if fires ev.2 ev.1 cooldown last then (true, some ev.1) else (false, last)

/-- A sequence of detection-engine evaluations of one key, threading the
per-key history record. -/
def runKey (cooldown : ℚ) : Option ℚ → List (ℚ × Bool) → List Bool × Option ℚ
  | last, [] => ([], last)
  | last, ev :: rest =>
    let s := stepKey cooldown last ev
    let r := runKey cooldown s.2 rest
    (s.1 :: r.1, r.2)

/-- Per-car body of `DetectionService._detect_slowdowns` (lines 63-89):
returns the emitted severity (if any) and the updated history record for the
key `slowdown_<carId>`. -/
def detect_slowdown_car (prev : Option CarSnap) (car : CarSnap) (last : Option ℚ)
    (now cooldown : ℚ) : Option AlertSeverity × Option ℚ :=
  match prev with
  | none => (none, last)
  | some p =>
    if 3/10 < slowdown_pct p.speed car.speed ∧ car.speed < 150 ∧ car.in_pit = false then
      if cooldown < now - last.getD 0 then
        (some (if 1/2 < slowdown_pct p.speed car.speed then .critical else .warning),
         some now)
      else (none, last)
    else (none, last)

/-- The field of `models.Incident` that `_detect_incidents` computes and
`_incidents_to_alerts` reads (severity is a plain string in the source). -/
structure Incident where
  severity : String
deriving DecidableEq

/-- Per-car body of `DetectionService._detect_incidents` (lines 178-196):
no cooldown state is read or written. -/
def detect_incident_car (prev : Option CarSnap) (car : CarSnap) : Option Incident :=
  match prev with
  | none => none
  | some p =>
    if 100 < p.speed - car.speed ∧ car.speed < 50 ∧ car.in_pit = false then
      some ⟨"high"⟩
    else none

/-- The `severity_map.get(incident.severity, AlertSeverity.WARNING)` lookup of
`_incidents_to_alerts` (line 204). -/
def severity_map (s : String) : AlertSeverity :=
  if s = "low" then .info
  else if s = "medium" then .warning
  else if s = "high" then .critical
  else .warning

/-- Alert severity of the alert built from an incident by
`_incidents_to_alerts`. -/
def incident_to_alert (i : Incident) : AlertSeverity := severity_map i.severity

/-- `DetectionService` state: the previous-snapshot map and the per-key
alert-history map, as association lists. -/
structure DetectionState where
  previous_telemetry : List (String × CarSnap)
  alert_history : List (String × ℚ)
deriving DecidableEq

/-- `DetectionService.reset` (lines 217-220): clear both maps. -/
def DetectionState.reset (_s : DetectionState) : DetectionState := ⟨[], []⟩

/-- `models.SessionStatus`. -/
inductive SessionStatus | not_started | in_progress | paused | finished
deriving DecidableEq

/-- The lifecycle-relevant part of `server.AppState`, plus a log of the
statuses carried by the `session_update` messages emitted so far. -/
structure ServerState where
  is_session_active : Bool
  session_status : SessionStatus
  published : List SessionStatus
deriving DecidableEq

/-- `server.start_session` (lines 231-252): early-return when already
active; otherwise activate, set `in_progress`, and broadcast one
`session_update` (the spawned tasks are outside this state). -/
def start_session (s : ServerState) : ServerState :=
  if s.is_session_active then s
  else { is_session_active := true
         session_status := .in_progress
         published := s.published ++ [SessionStatus.in_progress] }

/-- `server.stop_session` (lines 255-281): early-return when not active;
otherwise deactivate, set `paused`, and broadcast one `session_update`. -/
def stop_session (s : ServerState) : ServerState :=
  if s.is_session_active then
    { is_session_active := false
      session_status := .paused
      published := s.published ++ [SessionStatus.paused] }
  else s

/-- `server.start_session_endpoint` (lines 146-152): start and report
success when inactive, otherwise report failure. -/
def start_session_endpoint (s : ServerState) : ServerState × Bool :=
  if s.is_session_active then (s, false) else (start_session s, true)

/-- `server.stop_session_endpoint` (lines 155-161): stop and report success
when active, otherwise report failure. -/
def stop_session_endpoint (s : ServerState) : ServerState × Bool :=
  if s.is_session_active then (stop_session s, true) else (s, false)

set_option maxRecDepth 4000

theorem np_clip_lo (x lo hi : ℚ) (h : lo ≤ hi) : lo ≤ np_clip x lo hi :=
  le_min (le_max_right _ _) h

theorem np_clip_hi (x lo hi : ℚ) : np_clip x lo hi ≤ hi :=
  min_le_right _ _

/-- Claim C1: on every tick of the vehicle speed update, if the current
speed is in [50, 340] then the updated speed is again in [50, 340] and
differs from the current speed by at most 15 km/h in magnitude, for every
track position (hence every sector profile), every value of the sector-2
sine term, and every value of the random jitter. -/
theorem speed_update_bounded (progress current jitter sinVal : ℚ)
    (h1 : 50 ≤ current) (h2 : current ≤ 340) :
    50 ≤ calculate_speed_for_position progress current jitter sinVal ∧
    calculate_speed_for_position progress current jitter sinVal ≤ 340 ∧
    |calculate_speed_for_position progress current jitter sinVal - current| ≤ 15 := by
  refine ⟨np_clip_lo _ _ _ (by norm_num), np_clip_hi _ _ _, ?_⟩
  have hbl : (-15 : ℚ) ≤ np_clip (target_speed progress sinVal + jitter - current) (-15) 15 :=
    np_clip_lo _ _ _ (by norm_num)
  have hbh : np_clip (target_speed progress sinVal + jitter - current) (-15) 15 ≤ 15 :=
    np_clip_hi _ _ _
  set a := np_clip (target_speed progress sinVal + jitter - current) (-15) 15 with ha
  show |np_clip (current + a) 50 340 - current| ≤ 15
  rw [abs_le, np_clip]
  rcases le_total (current + a) 50 with h | h
  · rw [max_eq_right h, min_eq_left (by norm_num : (50:ℚ) ≤ 340)]
    constructor <;> linarith
  · rw [max_eq_left h]
    rcases le_total (current + a) 340 with h3 | h3
    · rw [min_eq_left h3]
      constructor <;> linarith
    · rw [min_eq_right h3]
      constructor <;> linarith

theorem speed_update_bounded_witness :
    50 ≤ calculate_speed_for_position 0 200 5 0 ∧
    calculate_speed_for_position 0 200 5 0 ≤ 340 ∧
    |calculate_speed_for_position 0 200 5 0 - 200| ≤ 15 :=
  speed_update_bounded 0 200 5 0 (by decide) (by decide)

/-- Claim C4: the sector computed from track progress is invariant under
adding any integer to the progress value (wraparound, with negative values
wrapped into [0,1) by the modulo). -/
theorem sectorAt_add_int (p : ℚ) (k : ℤ) : sectorAt (p + k) = sectorAt p := by
  have h : wrap01 (p + k) = wrap01 p := by
    unfold wrap01
    rw [Int.fract_add_int]
  unfold sectorAt
  rw [h]

/-- Claim C5: in every emitted snapshot the tire compound is the
deterministic function `tire_for_lap` of the snapshot's lap number, and that
function returns soft for laps below 15, medium for laps below 35, and hard
otherwise. -/
theorem tire_is_function_of_lap (st : CarState) (dt jitter sinVal pitRoll : ℚ) :
    (update_telemetry_car st dt jitter sinVal pitRoll).2.tire =
      tire_for_lap (update_telemetry_car st dt jitter sinVal pitRoll).2.current_lap ∧
    (∀ lap : ℤ,
      (lap < 15 → tire_for_lap lap = TireCompound.soft) ∧
      (15 ≤ lap → lap < 35 → tire_for_lap lap = TireCompound.medium) ∧
      (35 ≤ lap → tire_for_lap lap = TireCompound.hard)) := by
  constructor
  · rfl
  · intro lap
    refine ⟨fun h => by rw [tire_for_lap, if_pos h], fun h1 h2 => ?_, fun h => ?_⟩
    · rw [tire_for_lap, if_neg (by omega), if_pos h2]
    · rw [tire_for_lap, if_neg (by omega), if_neg (by omega)]

theorem tire_is_function_of_lap_witness :
    (update_telemetry_car ⟨0, 200, 0⟩ 50 5 0 1).2.tire =
      tire_for_lap (update_telemetry_car ⟨0, 200, 0⟩ 50 5 0 1).2.current_lap ∧
    tire_for_lap 1 = TireCompound.soft ∧
    tire_for_lap 20 = TireCompound.medium ∧
    tire_for_lap 40 = TireCompound.hard :=
  ⟨(tire_is_function_of_lap ⟨0, 200, 0⟩ 50 5 0 1).1,
   ((tire_is_function_of_lap ⟨0, 200, 0⟩ 50 5 0 1).2 1).1 (by decide),
   ((tire_is_function_of_lap ⟨0, 200, 0⟩ 50 5 0 1).2 20).2.1 (by decide) (by decide),
   ((tire_is_function_of_lap ⟨0, 200, 0⟩ 50 5 0 1).2 40).2.2 (by decide)⟩

/-- Claim C10: starting while the session is already active, or stopping
while it is not active, leaves the whole server state unchanged (in
particular no `session_update` message is appended to the publish log) and
the endpoint reports a failure boolean; the guards return early, so no
exception is raised. -/
theorem lifecycle_noop_endpoints (s : ServerState) :
    (s.is_session_active = true → start_session_endpoint s = (s, false)) ∧
    (s.is_session_active = false → stop_session_endpoint s = (s, false)) := by
  constructor
  · intro h
    rw [start_session_endpoint, if_pos h]
  · intro h
    rw [stop_session_endpoint, if_neg (by simp [h])]

theorem lifecycle_noop_endpoints_witness :
    start_session_endpoint ⟨true, SessionStatus.in_progress, []⟩ =
      (⟨true, SessionStatus.in_progress, []⟩, false) ∧
    stop_session_endpoint ⟨false, SessionStatus.not_started, []⟩ =
      (⟨false, SessionStatus.not_started, []⟩, false) :=
  ⟨(lifecycle_noop_endpoints ⟨true, SessionStatus.in_progress, []⟩).1 rfl,
   (lifecycle_noop_endpoints ⟨false, SessionStatus.not_started, []⟩).2 rfl⟩

/-- Claim C2 (amended): once a key fires at time `t`, no evaluation whose
time is within the cooldown window after `t` fires again, even if the
condition holds at every such evaluation, and the recorded timestamp stays
`t`; a key with no recorded firing fires when its condition holds, provided
the evaluation time exceeds the cooldown (the missing record reads as
timestamp 0); and a key fires again as soon as the window has elapsed and
the condition still holds. -/
theorem cooldown_gate_behavior (cooldown t : ℚ) (evs : List (ℚ × Bool)) :
    ((∀ ev ∈ evs, ev.1 - t ≤ cooldown) →
      runKey cooldown (some t) evs = (List.replicate evs.length false, some t)) ∧
    (∀ now : ℚ, cooldown < now → fires true now cooldown none = true) ∧
    (∀ now : ℚ, cooldown < now - t → fires true now cooldown (some t) = true) := by
  refine ⟨?_, ?_, ?_⟩
  · intro h
    induction evs with
    | nil => rfl
    | cons ev rest ih =>
      have hev : ev.1 - t ≤ cooldown := h ev (List.mem_cons_self _ _)
      have hf : fires ev.2 ev.1 cooldown (some t) = false := by
        rw [fires]
        have hng : ¬ (cooldown < ev.1 - (some t : Option ℚ).getD 0) := by
          simp only [Option.getD_some]
          linarith
        rw [decide_eq_false hng, Bool.and_false]
      have hstep : stepKey cooldown (some t) ev = (false, some t) := by
        rw [stepKey, hf]
        simp
      simp only [runKey, hstep]
      rw [ih (fun e he => h e (List.mem_cons_of_mem _ he))]
      simp [List.replicate_succ]
  · intro now h
    rw [fires]
    simp only [Option.getD_none, sub_zero]
    simp [h]
  · intro now h
    rw [fires]
    simp only [Option.getD_some]
    simp [h]

theorem cooldown_gate_behavior_witness :
    runKey 5 (some 0) [(3, true)] = ([false], some 0) ∧
    fires true 6 5 none = true ∧
    fires true 106 5 (some 0) = true :=
  ⟨(cooldown_gate_behavior 5 0 [(3, true)]).1
    (by
      intro ev hev
      rw [List.mem_singleton] at hev
      subst hev
      rw [sub_zero]
      decide),
   (cooldown_gate_behavior 5 0 []).2.1 6 (by decide),
   (cooldown_gate_behavior 5 0 []).2.2 106 (by rw [sub_zero]; decide)⟩

/-- Claim C2, counterexample to the claim as stated: with the default
cooldown of 5 seconds, a key with no recorded prior firing whose condition
holds at an evaluation at time 3 does not fire, because the absent record
reads as timestamp 0 and 3 - 0 does not exceed the cooldown. -/
theorem cooldown_no_record_cex :
    runKey 5 none [(3, true)] = ([false], none) := by
  have hf : fires true 3 5 none = false := by
    rw [fires]
    simp only [Option.getD_none, sub_zero]
    norm_num
  have hstep : stepKey 5 none (3, true) = (false, none) := by
    rw [stepKey]
    rw [show fires (3, true).2 (3, true).1 5 none = false from hf]
    simp
  simp [runKey, hstep]

/-- Claim C3: for a car with a previous snapshot with positive speed, a
slowdown alert is emitted exactly when the fractional drop exceeds 0.30,
the current speed is below 150 and the car is not in the pit (subject only
to the per-key cooldown gate); the emitted severity is CRITICAL exactly
when the drop fraction exceeds 0.50 and WARNING otherwise; in particular
previous speed 200 with current 130 yields WARNING and previous 200 with
current 90 yields CRITICAL. -/
theorem slowdown_rule_characterization (p car : CarSnap) (last : Option ℚ)
    (now cooldown : ℚ) (hp : 0 < p.speed) :
    ((detect_slowdown_car (some p) car last now cooldown).1.isSome = true ↔
      (3/10 < (p.speed - car.speed) / p.speed ∧ car.speed < 150 ∧ car.in_pit = false ∧
        cooldown < now - last.getD 0)) ∧
    (∀ sev, (detect_slowdown_car (some p) car last now cooldown).1 = some sev →
      ((sev = AlertSeverity.critical ↔ 1/2 < (p.speed - car.speed) / p.speed) ∧
       (sev = AlertSeverity.warning ↔ ¬ 1/2 < (p.speed - car.speed) / p.speed))) ∧
    detect_slowdown_car (some ⟨200, false⟩) ⟨130, false⟩ none 100 ALERT_COOLDOWN =
      (some AlertSeverity.warning, some 100) ∧
    detect_slowdown_car (some ⟨200, false⟩) ⟨90, false⟩ none 100 ALERT_COOLDOWN =
      (some AlertSeverity.critical, some 100) := by
  have hred : detect_slowdown_car (some p) car last now cooldown =
      if 3/10 < (p.speed - car.speed) / p.speed ∧ car.speed < 150 ∧ car.in_pit = false then
        if cooldown < now - last.getD 0 then
          (some (if 1/2 < (p.speed - car.speed) / p.speed then AlertSeverity.critical
                 else AlertSeverity.warning), some now)
        else (none, last)
      else (none, last) := by
    simp only [detect_slowdown_car, slowdown_pct, if_pos hp]
  refine ⟨?_, ?_, ?_, ?_⟩
  · rw [hred]
    by_cases h1 : 3/10 < (p.speed - car.speed) / p.speed ∧ car.speed < 150 ∧ car.in_pit = false
    · rw [if_pos h1]
      by_cases h2 : cooldown < now - last.getD 0
      · rw [if_pos h2]
        constructor
        · intro _
          exact ⟨h1.1, h1.2.1, h1.2.2, h2⟩
        · intro _
          rfl
      · rw [if_neg h2]
        constructor
        · intro hc
          simp at hc
        · intro hrhs
          exact absurd hrhs.2.2.2 h2
    · rw [if_neg h1]
      constructor
      · intro hc
        simp at hc
      · intro hrhs
        exact absurd ⟨hrhs.1, hrhs.2.1, hrhs.2.2.1⟩ h1
  · intro sev hsev
    rw [hred] at hsev
    by_cases h1 : 3/10 < (p.speed - car.speed) / p.speed ∧ car.speed < 150 ∧ car.in_pit = false
    · rw [if_pos h1] at hsev
      by_cases h2 : cooldown < now - last.getD 0
      · rw [if_pos h2] at hsev
        simp only [Option.some.injEq] at hsev
        by_cases h3 : 1/2 < (p.speed - car.speed) / p.speed
        · rw [if_pos h3] at hsev
          subst hsev
          refine ⟨⟨fun _ => h3, fun _ => rfl⟩, ⟨fun hw => absurd hw (by decide), fun hn => absurd h3 hn⟩⟩
        · rw [if_neg h3] at hsev
          subst hsev
          refine ⟨⟨fun hw => absurd hw (by decide), fun hc => absurd hc h3⟩, ⟨fun _ => h3, fun _ => rfl⟩⟩
      · rw [if_neg h2] at hsev
        simp at hsev
    · rw [if_neg h1] at hsev
      simp at hsev
  · norm_num [detect_slowdown_car, slowdown_pct, ALERT_COOLDOWN]
  · norm_num [detect_slowdown_car, slowdown_pct, ALERT_COOLDOWN]

theorem slowdown_rule_characterization_witness :
    detect_slowdown_car (some ⟨200, false⟩) ⟨130, false⟩ none 100 ALERT_COOLDOWN =
      (some AlertSeverity.warning, some 100) ∧
    detect_slowdown_car (some ⟨200, false⟩) ⟨90, false⟩ none 100 ALERT_COOLDOWN =
      (some AlertSeverity.critical, some 100) :=
  ⟨(slowdown_rule_characterization ⟨200, false⟩ ⟨130, false⟩ none 100 ALERT_COOLDOWN
      (by decide)).2.2.1,
   (slowdown_rule_characterization ⟨200, false⟩ ⟨90, false⟩ none 100 ALERT_COOLDOWN
      (by decide)).2.2.2⟩

/-- Claim C7: for a car with a previous snapshot, an incident is emitted
exactly when the speed drop exceeds 100 and the current speed is below 50
and the car is not in the pit; every emitted incident has severity "high"
and converts to a CRITICAL alert; the conversion map sends low to INFO,
medium to WARNING, high to CRITICAL; the rule reads no cooldown state, so
over any number of consecutive evaluations with the same snapshots it emits
every time; and previous speed 300 with current speed 40 not in pit yields
the incident with severity "high". -/
theorem incident_rule_characterization (p car : CarSnap) :
    ((detect_incident_car (some p) car).isSome = true ↔
      (100 < p.speed - car.speed ∧ car.speed < 50 ∧ car.in_pit = false)) ∧
    (∀ i, detect_incident_car (some p) car = some i →
      i.severity = "high" ∧ incident_to_alert i = AlertSeverity.critical) ∧
    (∀ n : ℕ, (List.replicate n car).map (fun c => detect_incident_car (some p) c) =
      List.replicate n (detect_incident_car (some p) car)) ∧
    (severity_map "low" = AlertSeverity.info ∧
     severity_map "medium" = AlertSeverity.warning ∧
     severity_map "high" = AlertSeverity.critical) ∧
    detect_incident_car (some ⟨300, false⟩) ⟨40, false⟩ = some ⟨"high"⟩ := by
  have hred : detect_incident_car (some p) car =
      if 100 < p.speed - car.speed ∧ car.speed < 50 ∧ car.in_pit = false then
        some ⟨"high"⟩
      else none := by
    simp only [detect_incident_car]
  refine ⟨?_, ?_, ?_, ?_, ?_⟩
  · rw [hred]
    by_cases h : 100 < p.speed - car.speed ∧ car.speed < 50 ∧ car.in_pit = false
    · rw [if_pos h]
      exact ⟨fun _ => h, fun _ => rfl⟩
    · rw [if_neg h]
      constructor
      · intro hc
        simp at hc
      · intro hrhs
        exact absurd hrhs h
  · intro i hi
    rw [hred] at hi
    by_cases h : 100 < p.speed - car.speed ∧ car.speed < 50 ∧ car.in_pit = false
    · rw [if_pos h] at hi
      simp only [Option.some.injEq] at hi
      subst hi
      constructor
      · rfl
      · rfl
    · rw [if_neg h] at hi
      simp at hi
  · intro n
    exact List.map_replicate ..
  · refine ⟨rfl, ?_, ?_⟩ <;> rfl
  · norm_num [detect_incident_car]

theorem incident_rule_characterization_witness :
    detect_incident_car (some ⟨300, false⟩) ⟨40, false⟩ = some ⟨"high"⟩ ∧
    (⟨"high"⟩ : Incident).severity = "high" ∧
    incident_to_alert ⟨"high"⟩ = AlertSeverity.critical :=
  have h := incident_rule_characterization ⟨300, false⟩ ⟨40, false⟩
  ⟨h.2.2.2.2,
   (h.2.1 ⟨"high"⟩ h.2.2.2.2).1,
   (h.2.1 ⟨"high"⟩ h.2.2.2.2).2⟩

/-- Claim C8 (amended): `reset()` empties both the previous-snapshot map
and the alert-history map, and after a reset every key's cooldown record is
absent, so any condition that was suppressed before the reset fires on the
first post-reset evaluation in which it holds, provided that evaluation's
time exceeds the cooldown (the cleared history reads as timestamp 0; wall
clock timestamps always satisfy this). -/
theorem reset_clears_state (st : DetectionState) :
    (st.reset).previous_telemetry = [] ∧
    (st.reset).alert_history = [] ∧
    (∀ key : String, ∀ now cooldown : ℚ, cooldown < now →
      fires true now cooldown ((st.reset).alert_history.lookup key) = true) := by
  refine ⟨rfl, rfl, ?_⟩
  intro key now cooldown h
  show fires true now cooldown (([] : List (String × ℚ)).lookup key) = true
  rw [List.lookup, fires]
  simp only [Option.getD_none, sub_zero]
  simp [h]

theorem reset_clears_state_witness :
    (DetectionState.reset ⟨[("CAR_1", ⟨100, false⟩)], [("slowdown_CAR_1", 7)]⟩).previous_telemetry = [] ∧
    (DetectionState.reset ⟨[("CAR_1", ⟨100, false⟩)], [("slowdown_CAR_1", 7)]⟩).alert_history = [] ∧
    fires true 20 5 ((DetectionState.reset
      ⟨[("CAR_1", ⟨100, false⟩)], [("slowdown_CAR_1", 7)]⟩).alert_history.lookup
        "slowdown_CAR_1") = true :=
  ⟨(reset_clears_state ⟨[("CAR_1", ⟨100, false⟩)], [("slowdown_CAR_1", 7)]⟩).1,
   (reset_clears_state ⟨[("CAR_1", ⟨100, false⟩)], [("slowdown_CAR_1", 7)]⟩).2.1,
   (reset_clears_state ⟨[("CAR_1", ⟨100, false⟩)], [("slowdown_CAR_1", 7)]⟩).2.2
     "slowdown_CAR_1" 20 5 (by decide)⟩

/-- Claim C8, counterexample to the claim as stated: a slowdown key that
fired at time 0 is suppressed at a pre-reset evaluation at time 4 (4 - 0
does not exceed the cooldown 5); after `reset()` the condition holds at
the first evaluation, at time 5, yet the key still does not fire, because
the cleared record reads as timestamp 0 and 5 - 0 does not exceed 5. -/
theorem reset_epoch_cex :
    fires true 4 5 (((⟨[], [("slowdown_CAR_1", 0)]⟩ : DetectionState)).alert_history.lookup
      "slowdown_CAR_1") = false ∧
    fires true 5 5 (((⟨[], [("slowdown_CAR_1", 0)]⟩ : DetectionState)).reset.alert_history.lookup
      "slowdown_CAR_1") = false := by
  constructor
  · show fires true 4 5 ([("slowdown_CAR_1", (0:ℚ))].lookup "slowdown_CAR_1") = false
    rw [show ([("slowdown_CAR_1", (0:ℚ))].lookup "slowdown_CAR_1") = some 0 by rfl]
    rw [fires]
    simp only [Option.getD_some, sub_zero]
    norm_num
  · show fires true 5 5 (([] : List (String × ℚ)).lookup "slowdown_CAR_1") = false
    rw [List.lookup, fires]
    simp only [Option.getD_none, sub_zero]
    norm_num

/-- Claim C9: every generated weather zone carries a condition drawn from
{dry, damp, wet} (heavy_rain is never produced), its rain intensity and
grip level are exactly the per-condition lookup constants (dry 0/95,
damp 20/75, wet 60/50, heavy_rain 90/30 on the branch no draw reaches),
and whenever the deviation roll misses the 10% window the zone keeps the
uniformly drawn base condition. -/
theorem weather_zone_properties (baseIdx : Fin 3) (roll : ℚ) (pick : Fin 3) :
    (gen_zone (cond_of_index baseIdx) roll pick).condition ≠ WeatherCondition.heavy_rain ∧
    (gen_zone (cond_of_index baseIdx) roll pick).rain =
      rain_intensity (gen_zone (cond_of_index baseIdx) roll pick).condition ∧
    (gen_zone (cond_of_index baseIdx) roll pick).grip =
      grip_level (gen_zone (cond_of_index baseIdx) roll pick).condition ∧
    (rain_intensity .dry = 0 ∧ grip_level .dry = 95 ∧
     rain_intensity .damp = 20 ∧ grip_level .damp = 75 ∧
     rain_intensity .wet = 60 ∧ grip_level .wet = 50 ∧
     rain_intensity .heavy_rain = 90 ∧ grip_level .heavy_rain = 30) ∧
    (1/10 ≤ roll → (gen_zone (cond_of_index baseIdx) roll pick).condition = cond_of_index baseIdx) := by
  have hne : ∀ i : Fin 3, cond_of_index i ≠ WeatherCondition.heavy_rain := by decide
  refine ⟨?_, rfl, rfl, ⟨rfl, rfl, rfl, rfl, rfl, rfl, rfl, rfl⟩, ?_⟩
  · show (if roll < 1/10 then cond_of_index pick else cond_of_index baseIdx) ≠ _
    by_cases h : roll < 1/10
    · rw [if_pos h]
      exact hne pick
    · rw [if_neg h]
      exact hne baseIdx
  · intro h
    show (if roll < 1/10 then cond_of_index pick else cond_of_index baseIdx) = _
    rw [if_neg (not_lt.mpr h)]

theorem weather_zone_properties_witness :
    (gen_zone (cond_of_index 0) 2 1).condition ≠ WeatherCondition.heavy_rain ∧
    (gen_zone (cond_of_index 0) 2 1).condition = cond_of_index 0 :=
  ⟨(weather_zone_properties 0 2 1).1,
   (weather_zone_properties 0 2 1).2.2.2.2 (by norm_num)⟩

theorem pyInt_eq_zero {q : ℚ} (h1 : -1 < q) (h2 : q < 1) : pyInt q = 0 := by
  rw [pyInt]
  split_ifs with h
  · rw [Int.ceil_eq_zero_iff]
    exact Set.mem_Ioc.mpr ⟨h1, le_of_lt h⟩
  · push_neg at h
    rw [Int.floor_eq_zero_iff]
    exact Set.mem_Ico.mpr ⟨h, h2⟩

/-- Claim C6 (amended): provided a tick's elapsed time is nonnegative and
at most 52 seconds (so the progress increment stays below one lap, as it
always is at the scheduled 20 Hz cadence), a car whose progress lies in
(-1, 1) keeps its progress in (-1, 1) - covering the initial grid stagger,
which lies in [-0.038, 0] - and the emitted snapshot has current_lap = 1,
hence tire soft and fuel 98.5; a longer gap between ticks breaks this,
because the wraparound subtracts only one.  The session-global lap counter
never feeds these fields. -/
theorem snapshot_lap_is_one (st : CarState) (dt jitter sinVal pitRoll : ℚ)
    (h1 : -1 < st.track_progress) (h2 : st.track_progress < 1)
    (h3 : 0 ≤ dt) (h4 : dt ≤ 52) :
    (update_telemetry_car st dt jitter sinVal pitRoll).2.current_lap = 1 ∧
    (update_telemetry_car st dt jitter sinVal pitRoll).2.tire = TireCompound.soft ∧
    (update_telemetry_car st dt jitter sinVal pitRoll).2.fuel = 197/2 ∧
    (-1 < (update_telemetry_car st dt jitter sinVal pitRoll).1.track_progress ∧
     (update_telemetry_car st dt jitter sinVal pitRoll).1.track_progress < 1) ∧
    (∀ idx : ℕ, idx ≤ 19 → -(38/1000) ≤ start_progress idx ∧ start_progress idx ≤ 0) := by
  have hs1 : 50 ≤ calculate_speed_for_position st.track_progress st.speed jitter sinVal :=
    np_clip_lo _ _ _ (by norm_num)
  have hs2 : calculate_speed_for_position st.track_progress st.speed jitter sinVal ≤ 340 :=
    np_clip_hi _ _ _
  set s2 := calculate_speed_for_position st.track_progress st.speed jitter sinVal with hs
  have hinc_eq : s2 / (18/5) * dt / total_length = s2 * dt / 18000 := by
    rw [total_length]
    ring
  have hmul : s2 * dt ≤ 17680 := by
    have := mul_le_mul hs2 h4 h3 (by norm_num : (0:ℚ) ≤ 340)
    linarith
  have hinc0 : 0 ≤ s2 * dt / 18000 :=
    div_nonneg (mul_nonneg (by linarith) h3) (by norm_num)
  have hinc1 : s2 * dt / 18000 < 1 := by
    rw [div_lt_one (by norm_num : (0:ℚ) < 18000)]
    linarith
  simp only [update_telemetry_car]
  rw [← hs, hinc_eq]
  set inc := s2 * dt / 18000 with hi
  set p2 := (if 1 ≤ st.track_progress + inc then st.track_progress + inc - 1
             else st.track_progress + inc) with hp
  have hp2a : -1 < p2 ∧ p2 < 1 := by
    rw [hp]
    split_ifs with hcase
    · constructor <;> linarith
    · push_neg at hcase
      constructor <;> linarith
  have hlap : pyInt p2 = 0 := pyInt_eq_zero hp2a.1 hp2a.2
  refine ⟨?_, ?_, ?_, ⟨hp2a.1, hp2a.2⟩, ?_⟩
  · rw [hlap]
    decide
  · rw [hlap]
    norm_num [tire_for_lap]
  · rw [hlap]
    rw [max_eq_right (by push_cast; norm_num)]
    push_cast
    norm_num
  · intro idx hidx
    rw [start_progress]
    have hc : (idx : ℚ) ≤ 19 := by exact_mod_cast hidx
    have hc0 : 0 ≤ (idx : ℚ) := Nat.cast_nonneg idx
    constructor <;> linarith

theorem snapshot_lap_is_one_witness :
    (update_telemetry_car ⟨0, 200, 0⟩ 50 5 0 1).2.current_lap = 1 ∧
    (update_telemetry_car ⟨0, 200, 0⟩ 50 5 0 1).2.tire = TireCompound.soft ∧
    (update_telemetry_car ⟨0, 200, 0⟩ 50 5 0 1).2.fuel = 197/2 :=
  have h := snapshot_lap_is_one ⟨0, 200, 0⟩ 50 5 0 1 (by decide) (by decide) (by decide) (by decide)
  ⟨h.1, h.2.1, h.2.2.1⟩

/-- Claim C6, counterexample to the claim as stated: a tick whose elapsed
time is 1200 seconds (for example the first tick after a long pause, since
`last_update_time` is not refreshed while stopped) moves a car from
progress 0 at speed 320 across more than 21 laps; the single subtraction
wraps only once, the progress stays above 1, and the emitted snapshot has
current_lap = 21 and a medium tire, not current_lap = 1 and a soft tire. -/
theorem snapshot_lap_large_dt_cex :
    (update_telemetry_car ⟨0, 320, 0⟩ 1200 0 0 1).2.current_lap = 21 ∧
    (update_telemetry_car ⟨0, 320, 0⟩ 1200 0 0 1).2.tire = TireCompound.medium := by
  have hw : wrap01 (0:ℚ) = 0 := by norm_num [wrap01, Int.fract]
  have hsec : sectorAt 0 = 1 := by
    simp only [sectorAt, hw]
    norm_num [pyInt]
    decide
  have hts : target_speed 0 0 = 320 := by
    simp only [target_speed, hsec]
    norm_num [pymod]
  have hspeed : calculate_speed_for_position 0 320 0 0 = 320 := by
    simp only [calculate_speed_for_position, hts]
    norm_num [np_clip]
  have hfloor : (⌊(61:ℚ)/3⌋ : ℤ) = 20 := by
    rw [Int.floor_eq_iff]
    norm_num
  have hint : pyInt (61/3 : ℚ) = 20 := by
    rw [pyInt, if_neg (by norm_num)]
    exact hfloor
  simp only [update_telemetry_car, hspeed, total_length]
  norm_num [tire_for_lap, hint]
